import Mathlib

/-!
Shallow embedding of the host/guest bridge of the MoviePilot p115strmhelper
frontend plugin: the deferred Sentry diagnostics singleton
(utils/init-sentry.js, utils/sentry.js), the dashboard status poller
(components/Dashboard.vue) and the view-switching app shell (App.vue).
JS values are modelled with Option (none = null/undefined), JS string
truthiness with an explicit empty-string test, and event-loop interleaving
as explicit step functions folded over event lists.
-/

/-! ## Deferred diagnostics singleton (init-sentry.js / sentry.js) -/

/-- Possible sources of the Vue app object searched by ensureSentryInitialized. -/
inductive AppRef where
  | fromInstanceContext
  | fromInstanceDirect
  | fromWindowApp
  | fromWindowInstance
  | tempApp
deriving DecidableEq

/-- Environment probed while locating an app object: which slots exist and
which probing steps throw (all throws are caught by inner try blocks). -/
structure SentryEnv where
  getInstanceThrows : Bool
  instancePresent : Bool
  instanceAppContext : Bool
  instanceDirect : Bool
  windowDefined : Bool
  windowVueApp : Bool
  windowVueInstance : Bool
  createAppThrows : Bool
deriving DecidableEq

/-- The app-locating logic of ensureSentryInitialized: current instance
context first, then the window globals, finally a throwaway temp app. -/
def findApp (env : SentryEnv) : Option AppRef :=
  let fromInstance : Option AppRef :=
    if env.getInstanceThrows then none
    else if env.instancePresent then
      if env.instanceAppContext then some AppRef.fromInstanceContext
      else if env.instanceDirect then some AppRef.fromInstanceDirect
      else none
    else none
  let afterWindow : Option AppRef :=
    match fromInstance with
    | some a => some a
    | none =>
      if env.windowDefined then
        if env.windowVueApp then some AppRef.fromWindowApp
        else if env.windowVueInstance then some AppRef.fromWindowInstance
        else none
      else none
  match afterWindow with
  | some a => some a
  | none => if env.createAppThrows then none else some AppRef.tempApp

/-- Outcome of one call to initSentry: whether the underlying Sentry.init
was attempted and whether that attempt succeeded. initSentry itself never
throws: every fallible statement of its body sits inside its try block. -/
structure InitSentryResult where
  attempted : Bool
  succeeded : Bool
deriving DecidableEq

/-- initSentry from sentry.js: returns early when options.enabled is false,
otherwise attempts Sentry.init once; a throw from the underlying client is
caught and logged inside initSentry, which then returns normally. -/
def initSentry (app : Option AppRef) (enabled : Bool)
    (underlyingThrows : Bool) : InitSentryResult :=
  if !enabled then { attempted := false, succeeded := false }
  else { attempted := true, succeeded := !underlyingThrows && (app == app) }

/-- Module-level state of init-sentry.js. -/
structure SentryState where
  sentryInitialized : Bool
  initSentryCalls : Nat
  underlyingAttempts : Nat
deriving DecidableEq

/-- Initial module state: the guard flag is false and nothing has run. -/
def sentryState0 : SentryState :=
  { sentryInitialized := false, initSentryCalls := 0, underlyingAttempts := 0 }

/-- One call to ensureSentryInitialized: if the guard flag is set the call
returns immediately; otherwise it locates an app, calls initSentry (which
always returns normally) with enabled = true, and sets the flag. -/
def ensureSentryInitialized (env : SentryEnv) (underlyingThrows : Bool)
    (s : SentryState) : SentryState :=
  if s.sentryInitialized then s
  else
    let r := initSentry (findApp env) true underlyingThrows
    { sentryInitialized := true,
      initSentryCalls := s.initSentryCalls + 1,
      underlyingAttempts :=
        s.underlyingAttempts + (if r.attempted then 1 else 0) }

/-- A sequence of calls to ensureSentryInitialized; each entry of the list
says whether the underlying Sentry.init would throw at that moment. -/
def runEnsure (env : SentryEnv) (throws : List Bool) : SentryState :=
  throws.foldl (fun s t => ensureSentryInitialized env t s) sentryState0

theorem ensure_flag_absorbs (env : SentryEnv) (ts : List Bool)
    (s : SentryState) (h : s.sentryInitialized = true) :
    ts.foldl (fun s t => ensureSentryInitialized env t s) s = s := by
  induction ts with
  | nil => rfl
  | cons t ts ih =>
      simp only [List.foldl_cons, ensureSentryInitialized, h, if_true]
      exact ih

/-- Claim C1: for every sequence of ensureSentryInitialized calls, and for
every behavior of the underlying Sentry.init (throwing or not at each
attempt), initSentry runs at most once and the underlying client is
attempted at most once; a throwing attempt still sets the guard flag, so a
later call does not re-invoke initSentry. -/
theorem ensure_sentry_single_attempt (env : SentryEnv) (throws : List Bool) :
    (runEnsure env throws).initSentryCalls = min throws.length 1 ∧
    (runEnsure env throws).underlyingAttempts = min throws.length 1 ∧
    (runEnsure env throws).sentryInitialized = !throws.isEmpty := by
  cases throws with
  | nil => simp [runEnsure, sentryState0]
  | cons t ts =>
      have hstep :
          ensureSentryInitialized env t sentryState0 =
            { sentryInitialized := true, initSentryCalls := 1,
              underlyingAttempts := 1 } := by
        simp [ensureSentryInitialized, sentryState0, initSentry]
      have habs := ensure_flag_absorbs env ts
        { sentryInitialized := true, initSentryCalls := 1,
          underlyingAttempts := 1 } rfl
      simp [runEnsure, List.foldl_cons, hstep, habs]

/-! ## Status poller (Dashboard.vue) -/

/-- The three status fields of the get_status response and of the reactive
snapshot; none models an absent field (undefined in JS). -/
structure StatusFields where
  enabled : Option Bool
  has_client : Option Bool
  running : Option Bool
deriving DecidableEq

/-- A resolved API response object: numeric code, optional data object
(none models absent/null data, some an object whose fields may themselves
be absent) and optional msg (none models an absent or falsy msg). -/
structure ApiResult where
  code : Int
  data : Option StatusFields
  msg : Option String
deriving DecidableEq

/-- How the awaited api.get call settles: resolved with a result (none
models a falsy result value) or rejected with an error whose message is
the given string. -/
inductive FetchOutcome where
  | resolved (result : Option ApiResult)
  | rejected (errMessage : String)
deriving DecidableEq

/-- Component state of Dashboard.vue: the four refs, the reactive status
snapshot and whether the refresh timer is set. -/
structure DashState where
  loading : Bool
  error : Option String
  initialDataLoaded : Bool
  lastRefreshedTimestamp : Option Nat
  status : StatusFields
  timerOn : Bool
deriving DecidableEq

/-- State at setup: loading false, no error, not loaded, no timestamp,
snapshot all false, no timer. -/
def dashState0 : DashState :=
  { loading := false, error := none, initialDataLoaded := false,
    lastRefreshedTimestamp := none,
    status := { enabled := some false, has_client := some false,
                running := some false },
    timerOn := false }

/-- JS string-or: a || b where the empty string is falsy. -/
def jsOrStr (a b : String) : String := if a = "" then b else a

/-- JS optional-chain-or: x?.msg || b where none is falsy. -/
def jsStrOfOpt (a : Option String) (b : String) : String :=
  match a with
  | some s => jsOrStr s b
  | none => b

/-- Fallback message of the Error thrown on a bad response shape. -/
def failMsgStatus : String := "获取状态失败"

/-- Fallback used when the caught error carries no message. -/
def failMsgData : String := "获取数据失败"

/-- The fixed plugin id returned by getPluginId. -/
def getPluginId : String := "P115StrmHelper"

/-- The request path fetchData issues through the capability handle. -/
def getStatusPath : String := "plugin/" ++ getPluginId ++ "/get_status"

/-- First half of fetchData, before the await: set loading, clear error. -/
def fetchStart (s : DashState) : DashState :=
  { s with loading := true, error := none }

/-- Whether a settled outcome takes the success branch of fetchData:
result truthy, code 0 and data truthy. -/
def fetchIsSuccess : FetchOutcome → Bool
  | FetchOutcome.resolved (some r) => r.code == 0 && r.data.isSome
  | _ => false

/-- Second half of fetchData, after the await: on success copy the three
data fields verbatim into the snapshot, set initialDataLoaded and the
timestamp; otherwise set error from msg (or the fallback) or from the
rejection message; the finally clause resets loading in every branch. -/
def fetchSettle (s : DashState) (o : FetchOutcome) (now : Nat) : DashState :=
  match o with
  | FetchOutcome.resolved (some r) =>
      match r.data with
      | some d =>
          if r.code == 0 then
            { s with status := d, initialDataLoaded := true,
                     lastRefreshedTimestamp := some now, loading := false }
          else
            { s with error := some (jsOrStr (jsStrOfOpt r.msg failMsgStatus)
                                            failMsgData),
                     loading := false }
      | none =>
          { s with error := some (jsOrStr (jsStrOfOpt r.msg failMsgStatus)
                                          failMsgData),
                   loading := false }
  | FetchOutcome.resolved none =>
      { s with error := some (jsOrStr failMsgStatus failMsgData),
               loading := false }
  | FetchOutcome.rejected m =>
      { s with error := some (jsOrStr m failMsgData), loading := false }

/-- A whole refresh with no interleaved events: start, then settle. -/
def fetchData (s : DashState) (o : FetchOutcome) (now : Nat) : DashState :=
  fetchSettle (fetchStart s) o now

/-- The onUnmounted handler: clear the refresh timer, nothing else. -/
def dashUnmount (s : DashState) : DashState := { s with timerOn := false }

/-- Events interleaved on the event loop: a fetch starting, an awaited
response settling, the component unmounting. -/
inductive DashEvent where
  | start
  | settle (o : FetchOutcome) (now : Nat)
  | unmount
deriving DecidableEq

/-- One event-loop step of the Dashboard component. -/
def dashStep (s : DashState) : DashEvent → DashState
  | DashEvent.start => fetchStart s
  | DashEvent.settle o now => fetchSettle s o now
  | DashEvent.unmount => dashUnmount s

/-- Run an event sequence from the setup state. -/
def runDash (es : List DashEvent) : DashState :=
  es.foldl dashStep dashState0

/-- Whether an event is a response settling on the success branch. -/
def eventSettlesSuccess : DashEvent → Bool
  | DashEvent.settle o _ => fetchIsSuccess o
  | _ => false

theorem dashStep_initialDataLoaded (s : DashState) (e : DashEvent) :
    (dashStep s e).initialDataLoaded =
      (s.initialDataLoaded || eventSettlesSuccess e) := by
  cases e with
  | start => simp [dashStep, fetchStart, eventSettlesSuccess]
  | unmount => simp [dashStep, dashUnmount, eventSettlesSuccess]
  | settle o now =>
      cases o with
      | rejected m => simp [dashStep, fetchSettle, eventSettlesSuccess, fetchIsSuccess]
      | resolved r =>
          cases r with
          | none => simp [dashStep, fetchSettle, eventSettlesSuccess, fetchIsSuccess]
          | some r =>
              cases hd : r.data with
              | none =>
                  simp [dashStep, fetchSettle, eventSettlesSuccess,
                        fetchIsSuccess, hd]
              | some d =>
                  by_cases hc : r.code == 0 <;>
                    simp [dashStep, fetchSettle, eventSettlesSuccess,
                          fetchIsSuccess, hd, hc]

theorem foldl_dash_loaded (es : List DashEvent) (s : DashState) :
    (es.foldl dashStep s).initialDataLoaded =
      (s.initialDataLoaded || es.any eventSettlesSuccess) := by
  induction es generalizing s with
  | nil => simp
  | cons e es ih =>
      simp [List.foldl_cons, ih, dashStep_initialDataLoaded, Bool.or_assoc]

/-- Claim C7: over every event sequence from the setup state, the
initialDataLoaded flag is true exactly when some earlier response settled
on the success branch: it turns true on the first successful fetch and
never resets, including across failing refreshes and unmount. -/
theorem initialDataLoaded_iff_success (es : List DashEvent) :
    (runDash es).initialDataLoaded = es.any eventSettlesSuccess := by
  simp [runDash, foldl_dash_loaded, dashState0]

theorem jsOrStr_ne_empty (a b : String) (hb : b ≠ "") : jsOrStr a b ≠ "" := by
  unfold jsOrStr
  by_cases h : a = "" <;> simp [h, hb]

/-- Claim C3: a refresh whose response is not a structured success (falsy
result, nonzero code, absent data, or a rejected request) sets error to a
nonempty message, leaves the three status fields at their prior values and
resets loading to false; a following successful refresh clears error and
writes the new values. -/
theorem fetch_failure_behavior (s : DashState) (o : FetchOutcome) (now : Nat)
    (h : fetchIsSuccess o = false) :
    ((∃ m, (fetchData s o now).error = some m ∧ m ≠ "") ∧
      (fetchData s o now).status = s.status ∧
      (fetchData s o now).loading = false) ∧
    ∀ (d : StatusFields) (m2 : Option String) (now2 : Nat),
      (fetchData (fetchData s o now)
        (FetchOutcome.resolved (some { code := 0, data := some d, msg := m2 }))
        now2).error = none ∧
      (fetchData (fetchData s o now)
        (FetchOutcome.resolved (some { code := 0, data := some d, msg := m2 }))
        now2).status = d := by
  constructor
  · have hmain : (∃ m, (fetchData s o now).error = some m ∧ m ≠ "") ∧
        (fetchData s o now).status = s.status ∧
        (fetchData s o now).loading = false := by
      cases o with
      | rejected m =>
          refine ⟨⟨jsOrStr m failMsgData, ?_, ?_⟩, ?_, ?_⟩
          · simp [fetchData, fetchStart, fetchSettle]
          · exact jsOrStr_ne_empty m failMsgData (by decide)
          · simp [fetchData, fetchStart, fetchSettle]
          · simp [fetchData, fetchStart, fetchSettle]
      | resolved r =>
          cases r with
          | none =>
              refine ⟨⟨jsOrStr failMsgStatus failMsgData, ?_, ?_⟩, ?_, ?_⟩
              · simp [fetchData, fetchStart, fetchSettle]
              · exact jsOrStr_ne_empty failMsgStatus failMsgData (by decide)
              · simp [fetchData, fetchStart, fetchSettle]
              · simp [fetchData, fetchStart, fetchSettle]
          | some r =>
              cases hd : r.data with
              | none =>
                  refine ⟨⟨jsOrStr (jsStrOfOpt r.msg failMsgStatus)
                      failMsgData, ?_, ?_⟩, ?_, ?_⟩
                  · simp [fetchData, fetchStart, fetchSettle, hd]
                  · exact jsOrStr_ne_empty _ failMsgData (by decide)
                  · simp [fetchData, fetchStart, fetchSettle, hd]
                  · simp [fetchData, fetchStart, fetchSettle, hd]
              | some d =>
                  have hc : (r.code == 0) = false := by
                    have := h
                    simp [fetchIsSuccess, hd] at this
                    simpa using this
                  refine ⟨⟨jsOrStr (jsStrOfOpt r.msg failMsgStatus)
                      failMsgData, ?_, ?_⟩, ?_, ?_⟩
                  · simp [fetchData, fetchStart, fetchSettle, hd, hc]
                  · exact jsOrStr_ne_empty _ failMsgData (by decide)
                  · simp [fetchData, fetchStart, fetchSettle, hd, hc]
                  · simp [fetchData, fetchStart, fetchSettle, hd, hc]
    exact hmain
  · intro d m2 now2
    constructor
    · simp [fetchData, fetchStart, fetchSettle]
    · simp [fetchData, fetchStart, fetchSettle]

/-- Witness for claim C3 at a concrete rejected request. -/
theorem fetch_failure_behavior_witness :
    fetchIsSuccess (FetchOutcome.rejected "") = false ∧
    (∃ m, (fetchData dashState0 (FetchOutcome.rejected "") 0).error = some m ∧
       m ≠ "") ∧
    (fetchData dashState0 (FetchOutcome.rejected "") 0).status =
      dashState0.status ∧
    (fetchData dashState0 (FetchOutcome.rejected "") 0).loading = false :=
  ⟨by decide,
   (fetch_failure_behavior dashState0 (FetchOutcome.rejected "") 0
      (by decide)).1⟩

/-- Claim C4: a refresh whose response is a structured success with code 0
and data present copies the three fields into the snapshot, sets
initialDataLoaded, stamps the timestamp with the current time, leaves
error cleared and resets loading; at the concrete triple
(enabled true, has_client false, running true) the snapshot equals that
triple. -/
theorem fetch_success_behavior (s : DashState) (d : StatusFields)
    (m : Option String) (now : Nat) :
    (fetchData s (FetchOutcome.resolved
        (some { code := 0, data := some d, msg := m })) now).status = d ∧
    (fetchData s (FetchOutcome.resolved
        (some { code := 0, data := some d, msg := m })) now).initialDataLoaded
      = true ∧
    (fetchData s (FetchOutcome.resolved
        (some { code := 0, data := some d, msg := m }))
        now).lastRefreshedTimestamp = some now ∧
    (fetchData s (FetchOutcome.resolved
        (some { code := 0, data := some d, msg := m })) now).error = none ∧
    (fetchData s (FetchOutcome.resolved
        (some { code := 0, data := some d, msg := m })) now).loading = false ∧
    (fetchData s (FetchOutcome.resolved
        (some { code := 0,
                data := some { enabled := some true, has_client := some false,
                               running := some true },
                msg := none })) now).status =
      { enabled := some true, has_client := some false,
        running := some true } := by
  refine ⟨?_, ?_, ?_, ?_, ?_, ?_⟩ <;>
    simp [fetchData, fetchStart, fetchSettle]

/-- Claim C10: on code 0 with a truthy data object the three fields are
copied verbatim with no boolean validation: a field absent from data makes
the corresponding snapshot field undefined, and the refresh still counts
as a success (initialDataLoaded set, timestamp stamped, error left null). -/
theorem fetch_success_verbatim_copy (s : DashState) (m : Option String)
    (now : Nat) :
    (fetchData s (FetchOutcome.resolved
        (some { code := 0,
                data := some { enabled := none, has_client := some true,
                               running := none },
                msg := m })) now).status.enabled = none ∧
    (fetchData s (FetchOutcome.resolved
        (some { code := 0,
                data := some { enabled := none, has_client := some true,
                               running := none },
                msg := m })) now).status.running = none ∧
    (fetchData s (FetchOutcome.resolved
        (some { code := 0,
                data := some { enabled := none, has_client := some true,
                               running := none },
                msg := m })) now).status.has_client = some true ∧
    (fetchData s (FetchOutcome.resolved
        (some { code := 0,
                data := some { enabled := none, has_client := some true,
                               running := none },
                msg := m })) now).initialDataLoaded = true ∧
    (fetchData s (FetchOutcome.resolved
        (some { code := 0,
                data := some { enabled := none, has_client := some true,
                               running := none },
                msg := m })) now).lastRefreshedTimestamp = some now ∧
    (fetchData s (FetchOutcome.resolved
        (some { code := 0,
                data := some { enabled := none, has_client := some true,
                               running := none },
                msg := m })) now).error = none := by
  refine ⟨?_, ?_, ?_, ?_, ?_, ?_⟩ <;>
    simp [fetchData, fetchStart, fetchSettle]

/-- Counterexample to claim C2: unmount while a refresh is in flight, then
let the delayed response resolve; the settle does mutate state (loading
goes from true to false, initialDataLoaded from false to true), so the
claimed guarded no-op path does not exist. -/
theorem late_response_mutation_cex :
    (runDash [DashEvent.start, DashEvent.unmount]).loading = true ∧
    (runDash [DashEvent.start, DashEvent.unmount]).initialDataLoaded
      = false ∧
    fetchSettle (runDash [DashEvent.start, DashEvent.unmount])
        (FetchOutcome.resolved
          (some { code := 0,
                  data := some { enabled := some true,
                                 has_client := some false,
                                 running := some true },
                  msg := none })) 7 ≠
      runDash [DashEvent.start, DashEvent.unmount] ∧
    (fetchSettle (runDash [DashEvent.start, DashEvent.unmount])
        (FetchOutcome.resolved
          (some { code := 0,
                  data := some { enabled := some true,
                                 has_client := some false,
                                 running := some true },
                  msg := none })) 7).initialDataLoaded = true := by
  refine ⟨by decide, by decide, by decide, by decide⟩

/-- Claim C2 as amended: fetchData contains no liveness guard, so a
response resolving after unmount throws no error (settling is total) but
is processed exactly as while mounted: loading is reset to false and the
state is changed whenever a refresh was in flight. -/
theorem late_settle_still_mutates (s : DashState) (o : FetchOutcome)
    (now : Nat) (h : s.loading = true) :
    fetchSettle (dashUnmount s) o now =
      { fetchSettle s o now with timerOn := false } ∧
    (fetchSettle (dashUnmount s) o now).loading = false ∧
    fetchSettle (dashUnmount s) o now ≠ dashUnmount s := by
  have hload : ∀ (t : DashState), (fetchSettle t o now).loading = false := by
    intro t
    cases o with
    | rejected m => rfl
    | resolved r =>
        cases r with
        | none => rfl
        | some r =>
            cases hd : r.data with
            | none => simp [fetchSettle, hd]
            | some d =>
                by_cases hc : r.code == 0 <;> simp [fetchSettle, hd, hc]
  obtain ⟨l, er, idl, ts, st, tm⟩ := s
  refine ⟨?_, hload _, ?_⟩
  · cases o with
    | rejected m => simp [fetchSettle, dashUnmount]
    | resolved r =>
        cases r with
        | none => simp [fetchSettle, dashUnmount]
        | some r =>
            cases hd : r.data with
            | none => simp [fetchSettle, dashUnmount, hd]
            | some d =>
                by_cases hc : r.code == 0 <;>
                  simp [fetchSettle, dashUnmount, hd, hc]
  · intro heq
    have h1 := hload (dashUnmount ⟨l, er, idl, ts, st, tm⟩)
    rw [heq] at h1
    simp [dashUnmount] at h1
    simp at h
    rw [h] at h1
    exact absurd h1 (by decide)

/-- Witness for the amended claim C2 at a concrete in-flight state. -/
theorem late_settle_still_mutates_witness :
    (runDash [DashEvent.start]).loading = true ∧
    (fetchSettle (dashUnmount (runDash [DashEvent.start]))
        (FetchOutcome.rejected "boom") 3).loading = false ∧
    fetchSettle (dashUnmount (runDash [DashEvent.start]))
        (FetchOutcome.rejected "boom") 3 ≠
      dashUnmount (runDash [DashEvent.start]) :=
  ⟨by decide,
   (late_settle_still_mutates (runDash [DashEvent.start])
      (FetchOutcome.rejected "boom") 3 (by decide)).2⟩

/-! ## App shell (App.vue): view controller, capability channel, relay -/

/-- Value held by the currentComponent shallowRef; page and config are the
two components ever assigned, undef stands for any other value the ref
could in principle hold. -/
inductive CompVal where
  | page
  | config
  | undef
deriving DecidableEq

/-- An incoming event.data object: an optional type tag and an optional
data payload (the capability handle descriptor, abstracted to a number). -/
structure Envelope where
  type : Option String
  data : Option Nat
deriving DecidableEq

/-- Outbound messages posted to the parent window. -/
inductive OutMsg where
  | ready
  | close
  | save (cfg : Nat)
deriving DecidableEq

/-- State of the App shell: the active component, the api ref shared with
children, a count of assignments to the api ref, and the messages posted
to the parent so far. -/
structure AppState where
  currentComponent : CompVal
  api : Option Nat
  apiWrites : Nat
  sent : List OutMsg
deriving DecidableEq

/-- Setup state: Page active, api null, nothing written or posted. -/
def appState0 : AppState :=
  { currentComponent := CompVal.page, api := none, apiWrites := 0,
    sent := [] }

/-- handleMessage from App.vue: a message whose data has type api writes
the payload into the api ref; one whose data has type showConfig sets the
Config component; anything else falls through both if statements with no
effect and no thrown error. -/
def handleMessage (s : AppState) (d : Option Envelope) : AppState :=
  match d with
  | none => s
  | some env =>
      let s1 :=
        if env.type == some "api" then
          { s with api := env.data, apiWrites := s.apiWrites + 1 }
        else s
      if env.type == some "showConfig" then
        { s1 with currentComponent := CompVal.config }
      else s1

/-- switchComponent: toggle, with the strict comparison of the source
(currentComponent === Page chooses Config, anything else chooses Page). -/
def switchComponent (s : AppState) : AppState :=
  { s with currentComponent :=
      if s.currentComponent == CompVal.page then CompVal.config
      else CompVal.page }

/-- closeModal: post close to the parent when the transport exists; no
local state change either way. -/
def closeModal (s : AppState) (transportAvail : Bool) : AppState :=
  if transportAvail then { s with sent := s.sent ++ [OutMsg.close] } else s

/-- saveConfig: post save with the payload when the transport exists, then
unconditionally switch back to the Page component. -/
def saveConfig (s : AppState) (cfg : Nat) (transportAvail : Bool) :
    AppState :=
  let s1 :=
    if transportAvail then { s with sent := s.sent ++ [OutMsg.save cfg] }
    else s
  { s1 with currentComponent := CompVal.page }

/-- Guest events: an incoming window message, the local switch action, a
save commit and a close request (each with transport availability). -/
inductive AppEvent where
  | message (d : Option Envelope)
  | switch
  | save (cfg : Nat) (transportAvail : Bool)
  | close (transportAvail : Bool)
deriving DecidableEq

/-- One event-loop step of the App shell. -/
def appStep (s : AppState) : AppEvent → AppState
  | AppEvent.message d => handleMessage s d
  | AppEvent.switch => switchComponent s
  | AppEvent.save cfg avail => saveConfig s cfg avail
  | AppEvent.close avail => closeModal s avail

/-- Run an event sequence from the setup state. -/
def runApp (es : List AppEvent) : AppState :=
  es.foldl appStep appState0

/-- Whether the envelope of an event is recognized by handleMessage. -/
def envelopeRecognized : Option Envelope → Bool
  | none => false
  | some env => env.type == some "api" || env.type == some "showConfig"

/-- Whether an event is an incoming message with type api. -/
def eventIsApiEnvelope : AppEvent → Bool
  | AppEvent.message (some env) => env.type == some "api"
  | _ => false

/-- Claim C5: saving any configuration value drives the active view back
to the primary Page component, whether or not the outbound transport to
the host exists, and independently of any relay outcome. -/
theorem saveConfig_returns_primary (s : AppState) (cfg : Nat)
    (transportAvail : Bool) :
    (saveConfig s cfg transportAvail).currentComponent = CompVal.page := by
  cases transportAvail <;> simp [saveConfig]

theorem appStep_view_defined (s : AppState) (e : AppEvent)
    (h : s.currentComponent = CompVal.page ∨
         s.currentComponent = CompVal.config) :
    (appStep s e).currentComponent = CompVal.page ∨
    (appStep s e).currentComponent = CompVal.config := by
  cases e with
  | message d =>
      match d with
      | none => exact h
      | some env =>
          by_cases hs : env.type == some "showConfig"
          · by_cases ha : env.type == some "api" <;>
              simp [appStep, handleMessage, hs, ha]
          · by_cases ha : env.type == some "api" <;>
              simpa [appStep, handleMessage, hs, ha] using h
  | switch =>
      by_cases hp : s.currentComponent == CompVal.page <;>
        simp [appStep, switchComponent, hp]
  | save cfg avail =>
      cases avail <;> simp [appStep, saveConfig]
  | close avail =>
      cases avail <;> simpa [appStep, closeModal] using h

theorem foldl_app_view_defined (es : List AppEvent) (s : AppState)
    (h : s.currentComponent = CompVal.page ∨
         s.currentComponent = CompVal.config) :
    (es.foldl appStep s).currentComponent = CompVal.page ∨
    (es.foldl appStep s).currentComponent = CompVal.config := by
  induction es generalizing s with
  | nil => exact h
  | cons e es ih => exact ih (appStep s e) (appStep_view_defined s e h)

/-- Claim C6: over every sequence of incoming messages (including host
showConfig pushes) and local switch, save and close events, the active
view is always one of the two defined identities Page or Config. -/
theorem view_always_defined (es : List AppEvent) :
    (runApp es).currentComponent = CompVal.page ∨
    (runApp es).currentComponent = CompVal.config :=
  foldl_app_view_defined es appState0 (Or.inl rfl)

/-- Claim C8: a malformed message (no data object) or one whose type tag
is not api or showConfig leaves the App state exactly unchanged, and the
handler, being a total function, throws nothing. -/
theorem unrecognized_message_noop (s : AppState) (d : Option Envelope)
    (h : envelopeRecognized d = false) :
    handleMessage s d = s := by
  match d with
  | none => rfl
  | some env =>
      simp [envelopeRecognized] at h
      simp [handleMessage, h.1, h.2]

/-- Witness for claim C8 at a concrete unknown message type. -/
theorem unrecognized_message_noop_witness :
    envelopeRecognized (some { type := some "bogus", data := some 9 })
      = false ∧
    handleMessage appState0 (some { type := some "bogus", data := some 9 })
      = appState0 :=
  ⟨by decide,
   unrecognized_message_noop appState0
     (some { type := some "bogus", data := some 9 }) (by decide)⟩

/-- Counterexample to claim C9: a mount that receives two api envelopes
performs two assignments to the api ref, not at most one; the second
envelope also overwrites the first handle. -/
theorem api_double_write_cex :
    ¬ ((runApp [AppEvent.message (some { type := some "api", data := some 1 }),
                AppEvent.message (some { type := some "api", data := some 2 })]
        ).apiWrites ≤ 1) ∧
    (runApp [AppEvent.message (some { type := some "api", data := some 1 }),
             AppEvent.message (some { type := some "api", data := some 2 })]
      ).api = some 2 := by
  refine ⟨by decide, by decide⟩

theorem appStep_apiWrites (s : AppState) (e : AppEvent) :
    (appStep s e).apiWrites =
      s.apiWrites + (if eventIsApiEnvelope e then 1 else 0) := by
  cases e with
  | message d =>
      match d with
      | none => simp [appStep, handleMessage, eventIsApiEnvelope]
      | some env =>
          by_cases ha : env.type == some "api" <;>
            by_cases hs : env.type == some "showConfig" <;>
              simp [appStep, handleMessage, eventIsApiEnvelope, ha, hs]
  | switch => simp [appStep, switchComponent, eventIsApiEnvelope]
  | save cfg avail =>
      cases avail <;> simp [appStep, saveConfig, eventIsApiEnvelope]
  | close avail =>
      cases avail <;> simp [appStep, closeModal, eventIsApiEnvelope]

theorem foldl_app_apiWrites (es : List AppEvent) (s : AppState) :
    (es.foldl appStep s).apiWrites =
      s.apiWrites + es.countP eventIsApiEnvelope := by
  induction es generalizing s with
  | nil => simp
  | cons e es ih =>
      simp [List.foldl_cons, ih, appStep_apiWrites, List.countP_cons]
      by_cases he : eventIsApiEnvelope e
      · simp [he]
        omega
      · simp [he]

/-- Claim C9 as amended: only the message handler ever writes the api ref,
and it assigns on every api envelope, so a sequence containing n api
envelopes produces exactly n assignments (one per envelope, the last one
winning), not at most one. -/
theorem api_writes_eq_envelopes (es : List AppEvent) :
    (runApp es).apiWrites = es.countP eventIsApiEnvelope := by
  simp [runApp, foldl_app_apiWrites, appState0]
